import Mathlib

/-!
Shallow embedding of kubeadm's bootstrap-token command layer
(`cmd/kubeadm/app/cmd/token.go`): the listing renderer
(`RunListTokens` / `humanReadableBootstrapToken`) and the batch delete
(`RunDeleteTokens`), together with the token-string helpers they call.

Time is modelled as `Int` seconds since the Unix epoch; the ambient
`time.Now()` of Go becomes an explicit `now : Int` argument threaded into
each call.  The remote secret store becomes explicit data: the list call's
result is a parameter of `RunListTokens`, and `RunDeleteTokens` acts on a
`DeleteState` holding the names present in the store, the delete calls
issued so far, and the lines written to `out`.
-/

namespace KubeadmToken

/-- A character allowed in bootstrap-token IDs and secrets: lowercase ASCII
letter or digit (the character class `[a-z0-9]`). -/
def isLowerAlnum (c : Char) : Bool :=
  ('a' ≤ c && c ≤ 'z') || ('0' ≤ c && c ≤ '9')

/-- Modelled from the spec: the constant `BootstrapTokenIDPattern` of
`k8s.io/cluster-bootstrap/token/api` is not part of the source under
verification; the spec gives the ID format as 6 lowercase-alphanumeric
characters. -/
def bootstrapTokenIDPattern : String := "[a-z0-9]{6}"

/-- Modelled from the spec: the constant `BootstrapTokenPattern` of
`k8s.io/cluster-bootstrap/token/api` is not part of the source under
verification; the spec gives the full token format as
`^[a-z0-9]{6}\.[a-z0-9]{16}$`. -/
def bootstrapTokenPattern : String := "[a-z0-9]{6}\\.[a-z0-9]{16}"

/-- Modelled from the spec: `bootstraputil.IsValidBootstrapTokenID` is not
part of the source under verification; per the spec, `IsValidID(s)` is true
iff `s` matches the 6-character ID pattern `[a-z0-9]{6}` alone. -/
def isValidBootstrapTokenID (s : String) : Bool :=
  s.length == 6 && s.data.all isLowerAlnum

/-- The two-part bootstrap token value: public ID and private Secret
(`kubeadmapiv1beta2.BootstrapTokenString`). -/
structure BootstrapTokenString where
  id : String
  secret : String
deriving DecidableEq, Repr

/-- `BootstrapTokenString.String()`: renders `"<ID>.<Secret>"`. -/
def BootstrapTokenString.toStr (bts : BootstrapTokenString) : String :=
  bts.id ++ "." ++ bts.secret

/-- Modelled from the spec: `kubeadmapiv1beta2.NewBootstrapTokenString` is
not part of the source under verification; per the spec, `Parse(raw)` fails
with `InvalidFormat` unless `raw` matches `^[a-z0-9]{6}\.[a-z0-9]{16}$`
exactly (6 ID characters, a literal dot, 16 secret characters, nothing
else), in which case the two capture groups become ID and Secret. -/
def newBootstrapTokenString (s : String) : Except String BootstrapTokenString :=
  let cs := s.data
  let idPart := cs.take 6
  let dotPart := (cs.drop 6).take 1
  let secretPart := cs.drop 7
  if cs.length == 23 && idPart.all isLowerAlnum && dotPart == ['.'] &&
      secretPart.all isLowerAlnum then
    .ok ⟨String.mk idPart, String.mk secretPart⟩
  else
    .error ("the bootstrap token \"" ++ s ++ "\" was not of the form \"" ++
      bootstrapTokenPattern ++ "\"")

/-- Modelled from the spec: the domain entity `kubeadmapi.BootstrapToken`
is declared outside the source under verification; per the spec it bundles
a TokenString with optional description, optional TTL, optional absolute
expiry, usages and groups.  Expiry is an absolute timestamp in epoch
seconds. -/
structure BootstrapToken where
  token : BootstrapTokenString
  description : String
  ttl : Option Int
  expires : Option Int
  usages : List String
  groups : List String
deriving Repr

/-- Modelled from the spec: `bootstraputil.BootstrapTokenSecretName` is not
part of the source under verification; the spec fixes the record naming
convention to `bootstrap-token-<ID>`. -/
def bootstrapTokenSecretName (tokenID : String) : String :=
  "bootstrap-token-" ++ tokenID

/-- Modelled from the spec: `duration.ShortHumanDuration` of apimachinery
is not part of the source under verification; the spec describes the TTL
column only as "a short human relative duration (e.g. \"23h\")".  The
argument is a duration in seconds. -/
def shortHumanDuration (seconds : Int) : String :=
  if seconds < 0 then "<invalid>"
  else if seconds < 60 then toString seconds ++ "s"
  else if seconds < 60 * 60 then toString (seconds / 60) ++ "m"
  else if seconds < 24 * 60 * 60 then toString (seconds / (60 * 60)) ++ "h"
  else if seconds < 365 * 24 * 60 * 60 then toString (seconds / (24 * 60 * 60)) ++ "d"
  else toString (seconds / (365 * 24 * 60 * 60)) ++ "y"

/-- Left-pads the decimal rendering of a non-negative integer with zeros to
two digits (calendar field rendering). -/
def pad2 (n : Int) : String :=
  if n < 10 then "0" ++ toString n else toString n

/-- Left-pads the decimal rendering of a non-negative integer with zeros to
four digits (year rendering). -/
def pad4 (n : Int) : String :=
  if n < 10 then "000" ++ toString n
  else if n < 100 then "00" ++ toString n
  else if n < 1000 then "0" ++ toString n
  else toString n

/-- Converts a count of days since the Unix epoch to a proleptic-Gregorian
civil date (year, month, day). -/
def civilFromDays (z0 : Int) : Int × Int × Int :=
  let z := z0 + 719468
  let era := Int.fdiv z 146097
  let doe := z - era * 146097
  let yoe := (doe - doe / 1460 + doe / 36524 - doe / 146096) / 365
  let y := yoe + era * 400
  let doy := doe - (365 * yoe + yoe / 4 - yoe / 100)
  let mp := (5 * doy + 2) / 153
  let d := doy - (153 * mp + 2) / 5 + 1
  let m := mp + (if mp < 10 then 3 else -9)
  (y + (if m ≤ 2 then 1 else 0), m, d)

/-- Modelled from the spec: Go's `time.Time.Format(time.RFC3339)` is
standard-library code outside the source under verification; the spec says
the EXPIRES column is the RFC3339 formatting of the expiry timestamp.
Renders epoch seconds as `YYYY-MM-DDThh:mm:ssZ` (UTC). -/
def rfc3339 (t : Int) : String :=
  let days := Int.fdiv t 86400
  let sod := Int.emod t 86400
  let ymd := civilFromDays days
  pad4 ymd.1 ++ "-" ++ pad2 ymd.2.1 ++ "-" ++ pad2 ymd.2.2 ++ "T" ++
    pad2 (sod / 3600) ++ ":" ++ pad2 ((sod / 60) % 60) ++ ":" ++
    pad2 (sod % 60) ++ "Z"

/-- `humanReadableBootstrapToken` (token.go:338-362): builds the
tab-separated data row for one token.  `now` is the value of `time.Now()`
at the moment of the call. -/
def humanReadableBootstrapToken (now : Int) (token : BootstrapToken) : String :=
  let description := if token.description.length == 0 then "<none>" else token.description
  let ttl := match token.expires with
    | none => "<forever>"
    | some e => shortHumanDuration (e - now)
  let expires := match token.expires with
    | none => "<never>"
    | some e => rfc3339 e
  let usagesString0 := String.intercalate "," token.usages
  let usagesString := if usagesString0.length == 0 then "<none>" else usagesString0
  let groupsString0 := String.intercalate "," token.groups
  let groupsString := if groupsString0.length == 0 then "<none>" else groupsString0
  token.token.toStr ++ "\t" ++ ttl ++ "\t" ++ expires ++ "\t" ++
    usagesString ++ "\t" ++ description ++ "\t" ++ groupsString

/-- Modelled from the spec: the stored record (a Kubernetes `Secret`) is
declared outside the source under verification; per the spec it is a
namespaced object with a type discriminator and fields for the token's ID,
secret, optional expiry, usages, groups and description. -/
structure StoredSecret where
  name : String
  type : String
  tokenID : Option String
  tokenSecret : Option String
  expiration : Option Int
  usages : List String
  groups : List String
  description : String
deriving Repr

/-- The type discriminator tagging a record as a bootstrap token
(`bootstrapapi.SecretTypeBootstrapToken`). -/
def secretTypeBootstrapToken : String := "bootstrap.kubernetes.io/token"

/-- Modelled from the spec: `kubeadmapi.BootstrapTokenFromSecret` is not
part of the source under verification; per the spec, `Decode(Record)` fails
with `MalformedRecord` if the record's type discriminator does not mark it
as a bootstrap token, or if the ID/Secret fields are missing or fail
TokenString parsing; otherwise it rebuilds the BootstrapToken from the
record's fields. -/
def bootstrapTokenFromSecret (s : StoredSecret) : Except String BootstrapToken :=
  if s.type != secretTypeBootstrapToken then
    .error ("secret \"" ++ s.name ++ "\" is not of type " ++ secretTypeBootstrapToken)
  else
    match s.tokenID, s.tokenSecret with
    | some i, some sec =>
      match newBootstrapTokenString (i ++ "." ++ sec) with
      | .ok bts =>
        .ok { token := bts, description := s.description, ttl := none,
              expires := s.expiration, usages := s.usages, groups := s.groups }
      | .error e => .error ("invalid token in secret \"" ++ s.name ++ "\": " ++ e)
    | _, _ =>
      .error ("secret \"" ++ s.name ++ "\" is missing the token-id or token-secret field")

/-- What `RunListTokens` wrote: the lines sent to the tab writer on `out`,
and the messages sent to the error writer `errW`. -/
structure ListOutput where
  out : List String
  errW : List String
deriving Repr, DecidableEq

/-- The per-secret loop of `RunListTokens` (token.go:295-307): each record
is decoded independently; a decode failure is printed to `errW` and the
record skipped, a success is rendered and printed to the tab writer. -/
def runListTokensLoop (now : Int) : List StoredSecret → List String × List String
  | [] => ([], [])
  | s :: rest =>
    let tail := runListTokensLoop now rest
    match bootstrapTokenFromSecret s with
    | .error e => (tail.1, e :: tail.2)
    | .ok token => (humanReadableBootstrapToken now token :: tail.1, tail.2)

/-- `RunListTokens` (token.go:272-310).  The store's list call is passed in
as its result: an error, or the secrets matching the bootstrap-token type
selector.  On a list error the call fails wrapped; otherwise the header and
one row per decodable secret go to `out`, decode errors go to `errW`, and
the call returns success. -/
def RunListTokens (now : Int) (listResult : Except String (List StoredSecret)) :
    Except String ListOutput :=
  match listResult with
  | .error e => .error ("failed to list bootstrap tokens: " ++ e)
  | .ok secrets =>
    let loop := runListTokensLoop now secrets
    .ok { out := "TOKEN\tTTL\tEXPIRES\tUSAGES\tDESCRIPTION\tEXTRA GROUPS" :: loop.1,
          errW := loop.2 }

/-- The id-or-token normalization step of `RunDeleteTokens`
(token.go:315-326): a valid bare ID is used directly, otherwise the input
is parsed as a full token and its ID extracted; `none` means neither
parse succeeded. -/
def resolveTokenID (tokenIDOrToken : String) : Option String :=
  if isValidBootstrapTokenID tokenIDOrToken then some tokenIDOrToken
  else
    match newBootstrapTokenString tokenIDOrToken with
    | .ok bts => some bts.id
    | .error _ => none

/-- The error message `RunDeleteTokens` builds when an input matches
neither pattern (token.go:322-323); note the source interpolates
`BootstrapTokenIDPattern` into both `%q` placeholders. -/
def deleteInvalidFormatMsg (tokenIDOrToken : String) : String :=
  "given token \"" ++ tokenIDOrToken ++ "\" didn't match pattern \"" ++
    bootstrapTokenIDPattern ++ "\" or \"" ++ bootstrapTokenIDPattern ++ "\""

/-- The state `RunDeleteTokens` acts on: the record names present in the
store, the names the store's delete was called with so far, and the lines
written to `out`. -/
structure DeleteState where
  existing : List String
  deletedCalls : List String
  out : List String
deriving Repr, DecidableEq

/-- Modelled from the spec: the store client's `Delete(namespace, name)` is
an external collaborator; per the spec it fails `NotFound` if the name is
absent, and otherwise removes the record. -/
def storeDelete (existing : List String) (name : String) : Except String (List String) :=
  if name ∈ existing then .ok (existing.erase name)
  else .error ("secrets \"" ++ name ++ "\" not found")

/-- `RunDeleteTokens` (token.go:313-336): for each input in order, resolve
it to a token ID (returning the invalid-format error immediately if neither
parse succeeds), derive the secret name, call the store's delete (returning
the wrapped error immediately on failure), and print a confirmation line.
Returns the final state and `none` on success, or the state reached so far
and the error that aborted the loop. -/
def RunDeleteTokens (st : DeleteState) : List String → DeleteState × Option String
  | [] => (st, none)
  | tokenIDOrToken :: rest =>
    match resolveTokenID tokenIDOrToken with
    | none => (st, some (deleteInvalidFormatMsg tokenIDOrToken))
    | some tokenID =>
      let tokenSecretName := bootstrapTokenSecretName tokenID
      let st1 := { st with deletedCalls := st.deletedCalls ++ [tokenSecretName] }
      match storeDelete st.existing tokenSecretName with
      | .error e =>
        (st1, some ("failed to delete bootstrap token \"" ++ tokenID ++ "\": " ++ e))
      | .ok remaining =>
        RunDeleteTokens
          { st1 with existing := remaining,
                     out := st1.out ++ ["bootstrap token \"" ++ tokenID ++ "\" deleted\n"] }
          rest

/-- The TTL column of a data row, as `humanReadableBootstrapToken` computes
it: `<forever>` when no expiry is set, otherwise the short human duration
of expiry minus the call time. -/
def ttlField (now : Int) (t : BootstrapToken) : String :=
  match t.expires with
  | none => "<forever>"
  | some e => shortHumanDuration (e - now)

/-- The EXPIRES column of a data row: `<never>` when no expiry is set,
otherwise the RFC3339 rendering of the expiry. -/
def expiresField (t : BootstrapToken) : String :=
  match t.expires with
  | none => "<never>"
  | some e => rfc3339 e

/-- The USAGES column: comma-joined usages, `<none>` when that is empty. -/
def usagesField (t : BootstrapToken) : String :=
  let usagesString0 := String.intercalate "," t.usages
  if usagesString0.length == 0 then "<none>" else usagesString0

/-- The DESCRIPTION column: the description, `<none>` when empty. -/
def descriptionField (t : BootstrapToken) : String :=
  if t.description.length == 0 then "<none>" else t.description

/-- The EXTRA GROUPS column: comma-joined groups, `<none>` when that is
empty. -/
def groupsField (t : BootstrapToken) : String :=
  let groupsString0 := String.intercalate "," t.groups
  if groupsString0.length == 0 then "<none>" else groupsString0

/-- The rendered row decomposes into the six column fields, tab-separated,
in the order token, ttl, expires, usages, description, groups. -/
theorem humanReadable_eq_fields (now : Int) (t : BootstrapToken) :
    humanReadableBootstrapToken now t =
      t.token.toStr ++ "\t" ++ ttlField now t ++ "\t" ++ expiresField t ++ "\t" ++
        usagesField t ++ "\t" ++ descriptionField t ++ "\t" ++ groupsField t := by
  cases t with
  | mk token description ttl expires usages groups =>
    cases expires <;> rfl

/-- Claim C1, counterexample: two bootstrap tokens that differ only in the
Secret part of their TokenString produce different listing lines, so the
rendered output does depend on the Secret (the TOKEN column prints the full
`<ID>.<Secret>` string). -/
theorem secret_changes_listing_line :
    humanReadableBootstrapToken 0
        ⟨⟨"abcdef", "0000000000000000"⟩, "", none, none, [], []⟩
      ≠ humanReadableBootstrapToken 0
        ⟨⟨"abcdef", "1111111111111111"⟩, "", none, none, [], []⟩ := by
  decide

/-- Claim C1, amended: the Secret reaches the listing line only through the
TOKEN column.  For two tokens differing only in the Secret, each rendered
line is the full token string `<ID>.<Secret>` followed by a common suffix:
the TTL, EXPIRES, USAGES, DESCRIPTION and GROUPS columns are identical and
independent of the Secret. -/
theorem secret_only_in_token_column (now : Int) (i s1 s2 d : String)
    (ttl e : Option Int) (us gs : List String) :
    humanReadableBootstrapToken now ⟨⟨i, s1⟩, d, ttl, e, us, gs⟩
      = (i ++ "." ++ s1) ++ "\t" ++ ttlField now ⟨⟨i, s1⟩, d, ttl, e, us, gs⟩ ++ "\t" ++
        expiresField ⟨⟨i, s1⟩, d, ttl, e, us, gs⟩ ++ "\t" ++
        usagesField ⟨⟨i, s1⟩, d, ttl, e, us, gs⟩ ++ "\t" ++
        descriptionField ⟨⟨i, s1⟩, d, ttl, e, us, gs⟩ ++ "\t" ++
        groupsField ⟨⟨i, s1⟩, d, ttl, e, us, gs⟩ ∧
    humanReadableBootstrapToken now ⟨⟨i, s2⟩, d, ttl, e, us, gs⟩
      = (i ++ "." ++ s2) ++ "\t" ++ ttlField now ⟨⟨i, s1⟩, d, ttl, e, us, gs⟩ ++ "\t" ++
        expiresField ⟨⟨i, s1⟩, d, ttl, e, us, gs⟩ ++ "\t" ++
        usagesField ⟨⟨i, s1⟩, d, ttl, e, us, gs⟩ ++ "\t" ++
        descriptionField ⟨⟨i, s1⟩, d, ttl, e, us, gs⟩ ++ "\t" ++
        groupsField ⟨⟨i, s1⟩, d, ttl, e, us, gs⟩ :=
  ⟨humanReadable_eq_fields now _, humanReadable_eq_fields now _⟩

/-- Claim C5: the header row emitted by `RunListTokens` is exactly
`TOKEN  TTL  EXPIRES  USAGES  DESCRIPTION  EXTRA GROUPS`, tab-separated, and
every data row renders its six fields in that same column order. -/
theorem list_header_and_column_order :
    (∀ (now : Int) (secrets : List StoredSecret),
        (RunListTokens now (Except.ok secrets)).map (fun o => o.out.head?)
          = Except.ok (some "TOKEN\tTTL\tEXPIRES\tUSAGES\tDESCRIPTION\tEXTRA GROUPS")) ∧
    (∀ (now : Int) (t : BootstrapToken),
        humanReadableBootstrapToken now t =
          t.token.toStr ++ "\t" ++ ttlField now t ++ "\t" ++ expiresField t ++ "\t" ++
            usagesField t ++ "\t" ++ descriptionField t ++ "\t" ++ groupsField t) :=
  ⟨fun now secrets => by simp [RunListTokens, Except.map], humanReadable_eq_fields⟩

/-- Claim C6: a token with no expiry, empty description, no usages and no
groups renders `<forever>` in the TTL column, `<never>` in the EXPIRES
column, and `<none>` in each of the USAGES, DESCRIPTION and GROUPS
columns. -/
theorem unset_fields_render_placeholders (now : Int) (ts : BootstrapTokenString)
    (ttl : Option Int) :
    humanReadableBootstrapToken now ⟨ts, "", ttl, none, [], []⟩
      = ts.toStr ++ "\t" ++ "<forever>" ++ "\t" ++ "<never>" ++ "\t" ++ "<none>" ++ "\t" ++
        "<none>" ++ "\t" ++ "<none>" := rfl

/-- Claim C8: for a token whose expiry is set, the TTL column is the short
human duration of expiry minus the call time `now` (so it is a function of
the moment of each call), and the EXPIRES column is the RFC3339 rendering
of the expiry timestamp. -/
theorem ttl_and_expires_from_call_time (now e : Int) (ts : BootstrapTokenString)
    (d : String) (ttl : Option Int) (us gs : List String) :
    humanReadableBootstrapToken now ⟨ts, d, ttl, some e, us, gs⟩
      = ts.toStr ++ "\t" ++ shortHumanDuration (e - now) ++ "\t" ++ rfc3339 e ++ "\t" ++
        usagesField ⟨ts, d, ttl, some e, us, gs⟩ ++ "\t" ++
        descriptionField ⟨ts, d, ttl, some e, us, gs⟩ ++ "\t" ++
        groupsField ⟨ts, d, ttl, some e, us, gs⟩ := rfl

/-- The listing loop processes the store's records independently: rendered
rows are exactly the decodable records' renderings, reported errors exactly
the failing records' decode errors, each in store order. -/
theorem runListTokensLoop_eq (now : Int) (secrets : List StoredSecret) :
    runListTokensLoop now secrets =
      (secrets.filterMap (fun s =>
          match bootstrapTokenFromSecret s with
          | .ok t => some (humanReadableBootstrapToken now t)
          | .error _ => none),
       secrets.filterMap (fun s =>
          match bootstrapTokenFromSecret s with
          | .ok _ => none
          | .error e => some e)) := by
  induction secrets with
  | nil => rfl
  | cons s rest ih =>
    simp only [runListTokensLoop, ih, List.filterMap_cons]
    cases h : bootstrapTokenFromSecret s <;> simp [h]

/-- Claim C3: `RunListTokens` decodes each record independently — a record
that fails to decode contributes only a message on the error writer while
every decodable record still contributes a rendered row — and in
particular, over a store holding one well-formed and one corrupted record,
the listing yields one rendered token plus one reported decode error, not a
total failure. -/
theorem list_decodes_each_record_independently (now : Int) (s1 s2 : StoredSecret)
    (t : BootstrapToken) (e : String)
    (h1 : bootstrapTokenFromSecret s1 = .ok t)
    (h2 : bootstrapTokenFromSecret s2 = .error e) :
    (∀ secrets : List StoredSecret,
        RunListTokens now (Except.ok secrets)
          = Except.ok
              ⟨"TOKEN\tTTL\tEXPIRES\tUSAGES\tDESCRIPTION\tEXTRA GROUPS" ::
                  secrets.filterMap (fun s =>
                    match bootstrapTokenFromSecret s with
                    | .ok tok => some (humanReadableBootstrapToken now tok)
                    | .error _ => none),
                secrets.filterMap (fun s =>
                  match bootstrapTokenFromSecret s with
                  | .ok _ => none
                  | .error msg => some msg)⟩) ∧
    RunListTokens now (Except.ok [s1, s2])
      = Except.ok
          ⟨["TOKEN\tTTL\tEXPIRES\tUSAGES\tDESCRIPTION\tEXTRA GROUPS",
            humanReadableBootstrapToken now t], [e]⟩ := by
  constructor
  · intro secrets
    simp [RunListTokens, runListTokensLoop_eq]
  · simp [RunListTokens, runListTokensLoop, h1, h2]

/-- Claim C3 witness: a concrete store with one well-formed and one
corrupted record. -/
theorem list_decodes_each_record_independently_witness :
    RunListTokens 0 (Except.ok
        [⟨"bootstrap-token-tok123", secretTypeBootstrapToken, some "tok123",
          some "fedcba9876543210", none, [], [], ""⟩,
         ⟨"corrupt", secretTypeBootstrapToken, none, some "x", none, [], [], ""⟩])
      = Except.ok
          ⟨["TOKEN\tTTL\tEXPIRES\tUSAGES\tDESCRIPTION\tEXTRA GROUPS",
            humanReadableBootstrapToken 0
              ⟨⟨"tok123", "fedcba9876543210"⟩, "", none, none, [], []⟩],
           ["secret \"corrupt\" is missing the token-id or token-secret field"]⟩ :=
  (list_decodes_each_record_independently 0
      ⟨"bootstrap-token-tok123", secretTypeBootstrapToken, some "tok123",
        some "fedcba9876543210", none, [], [], ""⟩
      ⟨"corrupt", secretTypeBootstrapToken, none, some "x", none, [], [], ""⟩
      ⟨⟨"tok123", "fedcba9876543210"⟩, "", none, none, [], []⟩
      "secret \"corrupt\" is missing the token-id or token-secret field"
      rfl rfl).2

/-- Claim C10: whenever the store's list call succeeds, `RunListTokens`
returns success, whatever the records decode to; decode failures reach only
the error writer. -/
theorem list_succeeds_when_store_list_succeeds (now : Int) (secrets : List StoredSecret) :
    ∃ o : ListOutput, RunListTokens now (Except.ok secrets) = Except.ok o ∧
      o.errW = secrets.filterMap (fun s =>
        match bootstrapTokenFromSecret s with
        | .ok _ => none
        | .error e => some e) := by
  refine ⟨_, rfl, ?_⟩
  simp [runListTokensLoop_eq]

/-- Claim C2, counterexample: with the store holding the record for
`abc123` and the batch `["bad-format", "abc123"]`, the run aborts on the
first item: no delete call is issued at all, the second record survives,
and no per-item outcomes are reported — refuting that subsequent items are
still processed. -/
theorem delete_batch_aborts_counterexample :
    RunDeleteTokens ⟨["bootstrap-token-abc123"], [], []⟩ ["bad-format", "abc123"]
      = (⟨["bootstrap-token-abc123"], [], []⟩,
         some ("given token \"bad-format\" didn't match pattern \"[a-z0-9]{6}\" or \"[a-z0-9]{6}\"")) := by
  decide

/-- Claim C2, amended: when an item fails — invalid format, or the store's
delete fails — `RunDeleteTokens` returns that item's error immediately:
subsequent items in the batch are not processed and no aggregate error is
built (earlier items, however, were already processed and reported). -/
theorem delete_stops_at_first_failure (st : DeleteState) (x : String) (rest : List String) :
    (resolveTokenID x = none →
        RunDeleteTokens st (x :: rest) = (st, some (deleteInvalidFormatMsg x))) ∧
    (∀ i : String, resolveTokenID x = some i →
        bootstrapTokenSecretName i ∉ st.existing →
        RunDeleteTokens st (x :: rest)
          = ({ st with deletedCalls := st.deletedCalls ++ [bootstrapTokenSecretName i] },
             some ("failed to delete bootstrap token \"" ++ i ++ "\": " ++
               ("secrets \"" ++ bootstrapTokenSecretName i ++ "\" not found")))) := by
  constructor
  · intro h
    simp [RunDeleteTokens, h]
  · intro i hi hmem
    simp [RunDeleteTokens, hi, storeDelete, hmem]

/-- Claim C2 witness: one batch failing on an invalid first item, one batch
failing on a store delete of an absent record. -/
theorem delete_stops_at_first_failure_witness :
    RunDeleteTokens ⟨[], [], []⟩ ["??", "aaaaaa"]
      = (⟨[], [], []⟩, some (deleteInvalidFormatMsg "??")) ∧
    RunDeleteTokens ⟨[], [], []⟩ ["aaaaaa", "bbbbbb"]
      = (⟨[], ["bootstrap-token-aaaaaa"], []⟩,
         some ("failed to delete bootstrap token \"aaaaaa\": secrets \"bootstrap-token-aaaaaa\" not found")) :=
  ⟨(delete_stops_at_first_failure ⟨[], [], []⟩ "??" ["aaaaaa"]).1 (by decide),
   (delete_stops_at_first_failure ⟨[], [], []⟩ "aaaaaa" ["bbbbbb"]).2 "aaaaaa"
     (by decide) (by decide)⟩

/-- Claim C7: an input that is neither a valid bare token ID nor a
parseable full token makes `RunDeleteTokens` return the invalid-format
error for that item with no store delete call issued for it. -/
theorem invalid_delete_input_no_store_call (st : DeleteState) (x : String)
    (rest : List String) (h : resolveTokenID x = none) :
    RunDeleteTokens st (x :: rest) = (st, some (deleteInvalidFormatMsg x)) ∧
    (RunDeleteTokens st (x :: rest)).1.deletedCalls = st.deletedCalls := by
  simp [RunDeleteTokens, h]

/-- Claim C7 witness: a concrete malformed input against a non-empty
store. -/
theorem invalid_delete_input_no_store_call_witness :
    RunDeleteTokens ⟨["bootstrap-token-zzzzzz"], [], []⟩ ["invalid-token", "zzzzzz"]
      = (⟨["bootstrap-token-zzzzzz"], [], []⟩, some (deleteInvalidFormatMsg "invalid-token")) ∧
    (RunDeleteTokens ⟨["bootstrap-token-zzzzzz"], [], []⟩
        ["invalid-token", "zzzzzz"]).1.deletedCalls = [] :=
  invalid_delete_input_no_store_call ⟨["bootstrap-token-zzzzzz"], [], []⟩
    "invalid-token" ["zzzzzz"] (by decide)

/-- Claim C9: the invalid-format message quotes the input and then
interpolates the bootstrap-token ID pattern into both of its two pattern
placeholders — the same `BootstrapTokenIDPattern` twice, not the ID pattern
and the distinct full-token pattern. -/
theorem invalid_format_msg_doubles_id_pattern (st : DeleteState) (x : String)
    (rest : List String) (h : resolveTokenID x = none) :
    (RunDeleteTokens st (x :: rest)).2
      = some ("given token \"" ++ x ++ "\" didn't match pattern \"" ++
          bootstrapTokenIDPattern ++ "\" or \"" ++ bootstrapTokenIDPattern ++ "\"") ∧
    bootstrapTokenIDPattern ≠ bootstrapTokenPattern := by
  refine ⟨?_, by decide⟩
  simp [RunDeleteTokens, h, deleteInvalidFormatMsg]

/-- Claim C9 witness: a concrete malformed input. -/
theorem invalid_format_msg_doubles_id_pattern_witness :
    (RunDeleteTokens ⟨[], [], []⟩ ["zzz"]).2
      = some ("given token \"zzz\" didn't match pattern \"" ++ bootstrapTokenIDPattern ++
          "\" or \"" ++ bootstrapTokenIDPattern ++ "\"") ∧
    bootstrapTokenIDPattern ≠ bootstrapTokenPattern :=
  invalid_format_msg_doubles_id_pattern ⟨[], [], []⟩ "zzz" [] (by decide)

/-- A bare ID is valid iff its characters are 6 lowercase-alphanumerics. -/
theorem isValidBootstrapTokenID_iff (s : String) :
    isValidBootstrapTokenID s = true ↔
      s.data.length = 6 ∧ s.data.all isLowerAlnum = true := by
  unfold isValidBootstrapTokenID
  rw [Bool.and_eq_true, beq_iff_eq]
  exact Iff.rfl

/-- Parsing the concatenation `<ID>.<Secret>` of a valid 6-character ID and
a valid 16-character secret succeeds and recovers exactly the two parts. -/
theorem newBootstrapTokenString_append (i s : String)
    (hi6 : i.data.length = 6) (hiAll : i.data.all isLowerAlnum = true)
    (hs16 : s.data.length = 16) (hsAll : s.data.all isLowerAlnum = true) :
    newBootstrapTokenString (i ++ "." ++ s) = .ok ⟨i, s⟩ := by
  have hdata : (i ++ "." ++ s).data = (i.data ++ ['.']) ++ s.data := by
    rw [String.data_append, String.data_append]
  have hlen7 : (i.data ++ ['.']).length = 7 := by
    simp [hi6]
  have htake : ((i ++ "." ++ s).data).take 6 = i.data := by
    rw [hdata, List.append_assoc]
    exact List.take_left' hi6
  have hdrop6 : ((i ++ "." ++ s).data).drop 6 = '.' :: s.data := by
    rw [hdata, List.append_assoc]
    exact List.drop_left' hi6
  have hdrop7 : ((i ++ "." ++ s).data).drop 7 = s.data := by
    rw [hdata]
    exact List.drop_left' hlen7
  have hlen : ((i ++ "." ++ s).data).length = 23 := by
    rw [hdata]
    simp [hi6, hs16]
  have hmkI : String.mk i.data = i := rfl
  have hmkS : String.mk s.data = s := rfl
  simp only [newBootstrapTokenString, htake, hdrop6, hdrop7, hlen, hmkI, hmkS]
  simp [hiAll, hsAll]

/-- A valid full token string is never a valid bare ID (it has 23
characters, not 6). -/
theorem full_token_not_bare_id (i s : String)
    (hi6 : i.data.length = 6) (hs16 : s.data.length = 16) :
    isValidBootstrapTokenID (i ++ "." ++ s) = false := by
  have hdata : (i ++ "." ++ s).data = (i.data ++ ['.']) ++ s.data := by
    rw [String.data_append, String.data_append]
  have hlen : (i ++ "." ++ s).length = 23 := by
    show (i ++ "." ++ s).data.length = 23
    rw [hdata]
    simp [hi6, hs16]
  simp [isValidBootstrapTokenID, hlen]

/-- Claim C4: delete-input normalization maps a bare valid ID and any full
token string carrying that ID to the same derived record name
`bootstrap-token-<ID>`, against which the delete is issued; an input that
is neither yields the invalid-format error. -/
theorem delete_input_normalization (i s : String)
    (hi : isValidBootstrapTokenID i = true)
    (hs : s.length = 16 ∧ s.data.all isLowerAlnum = true) :
    resolveTokenID i = some i ∧
    resolveTokenID (i ++ "." ++ s) = some i ∧
    (∀ st : DeleteState,
        (RunDeleteTokens st [i]).1.deletedCalls
          = st.deletedCalls ++ ["bootstrap-token-" ++ i] ∧
        (RunDeleteTokens st [i ++ "." ++ s]).1.deletedCalls
          = st.deletedCalls ++ ["bootstrap-token-" ++ i]) ∧
    (∀ x : String, resolveTokenID x = none →
        ∀ (st : DeleteState) (rest : List String),
          RunDeleteTokens st (x :: rest) = (st, some (deleteInvalidFormatMsg x))) := by
  obtain ⟨hi6, hiAll⟩ := (isValidBootstrapTokenID_iff i).mp hi
  obtain ⟨hs16, hsAll⟩ := hs
  have hs16' : s.data.length = 16 := hs16
  have hparse := newBootstrapTokenString_append i s hi6 hiAll hs16' hsAll
  have hnotID := full_token_not_bare_id i s hi6 hs16'
  have r1 : resolveTokenID i = some i := by
    simp [resolveTokenID, hi]
  have r2 : resolveTokenID (i ++ "." ++ s) = some i := by
    simp [resolveTokenID, hnotID, hparse]
  refine ⟨r1, r2, ?_, ?_⟩
  · intro st
    constructor
    · simp only [RunDeleteTokens, r1]
      cases h : storeDelete st.existing (bootstrapTokenSecretName i) <;>
        simp [RunDeleteTokens, bootstrapTokenSecretName]
    · simp only [RunDeleteTokens, r2]
      cases h : storeDelete st.existing (bootstrapTokenSecretName i) <;>
        simp [RunDeleteTokens, bootstrapTokenSecretName]
  · intro x hx st rest
    simp [RunDeleteTokens, hx]

/-- Claim C4 witness: the bare ID `abcdef` and the full token
`abcdef.0123456789abcdef` resolve to the same record name and the delete is
issued against it; a doubly-dotted input is rejected. -/
theorem delete_input_normalization_witness :
    resolveTokenID "abcdef" = some "abcdef" ∧
    resolveTokenID "abcdef.0123456789abcdef" = some "abcdef" ∧
    (RunDeleteTokens ⟨[], [], []⟩ ["abcdef"]).1.deletedCalls
      = ["bootstrap-token-abcdef"] ∧
    (RunDeleteTokens ⟨[], [], []⟩ ["abcdef.0123456789abcdef"]).1.deletedCalls
      = ["bootstrap-token-abcdef"] ∧
    RunDeleteTokens ⟨[], [], []⟩ ["ab..cd"]
      = (⟨[], [], []⟩, some (deleteInvalidFormatMsg "ab..cd")) := by
  have h := delete_input_normalization "abcdef" "0123456789abcdef"
    (by decide) ⟨by decide, by decide⟩
  exact ⟨h.1, h.2.1, (h.2.2.1 ⟨[], [], []⟩).1, (h.2.2.1 ⟨[], [], []⟩).2,
    h.2.2.2 "ab..cd" (by decide) ⟨[], [], []⟩ []⟩

end KubeadmToken
